import Mathlib

/-!
Verification of the streaming neurofeedback pipeline in `neurofeedback.py`.

Shallow embedding: samples are rationals, buffers are lists, and one pass of
the orchestration loop is an explicit state-passing function returning
`Except` on the error paths.  The helper module `utils` imported by the script
is not part of the source tree; its operations are modelled from the spec and
carry a doc comment saying so.
-/

namespace Neurofeedback

/-- Length of the EEG data buffer in seconds (`BUFFER_LENGTH = 5`, an integer
in the source, line 22). -/
def BUFFER_LENGTH : ℕ := 5

/-- Length of the epochs used for the FFT in seconds (`EPOCH_LENGTH = 1`,
line 25). -/
def EPOCH_LENGTH : ℕ := 1

/-- Overlap between two consecutive epochs in seconds (`OVERLAP_LENGTH = 0.8`,
line 28), read in exact arithmetic as 4/5. -/
def OVERLAP_LENGTH : ℚ := 4/5

/-- `SHIFT_LENGTH = EPOCH_LENGTH - OVERLAP_LENGTH` (line 31). -/
def SHIFT_LENGTH : ℚ := (EPOCH_LENGTH : ℚ) - OVERLAP_LENGTH

/-- Channel selection `INDEX_CHANNEL = [0]` (line 35). -/
def INDEX_CHANNEL : List ℕ := [0]

/-- Blink detection threshold `BLINK_THRESHOLD = 200` (line 38). -/
def BLINK_THRESHOLD : ℚ := 200

/-- `n_win_test = int(np.floor((BUFFER_LENGTH - EPOCH_LENGTH) / SHIFT_LENGTH + 1))`
(line 69). -/
def n_win_test : ℕ :=
  (⌊((BUFFER_LENGTH : ℚ) - (EPOCH_LENGTH : ℚ)) / SHIFT_LENGTH + 1⌋).toNat

/-- Notch filter state: `None` before the first chunk, afterwards the carried
IIR delay line (spec section 9 models it as a sum type). -/
inductive FilterState where
  | unset : FilterState
  | active (z : List ℚ) : FilterState
deriving DecidableEq, Repr

/-- Modelled from the spec: one sample step of the stateful IIR notch filter
in direct form II transposed, with numerator taps `bs`, denominator taps `as`
(those after the leading 1), and delay line `z`.  The concrete coefficients
live in the missing `utils` module; the claims quantify over them. -/
def iirStep (bs as z : List ℚ) (x : ℚ) : ℚ × List ℚ :=
  let y := bs.headD 0 * x + z.headD 0
  let z1 := (List.range z.length).map (fun i =>
    bs.tail.getD i 0 * x + (z.tail ++ [0]).getD i 0 - as.getD i 0 * y)
  (y, z1)

/-- Modelled from the spec: the stateful filter applied to a whole chunk,
threading the delay line and returning the filtered chunk with the final
state (`scipy.signal.lfilter` with `zi`, as used by the missing
`utils.update_buffer`). -/
def lfilter (bs as : List ℚ) (z : List ℚ) : List ℚ → List ℚ × List ℚ
  | [] => ([], z)
  | x :: xs =>
    let p := iirStep bs as z x
    let q := lfilter bs as p.2 xs
    (p.1 :: q.1, q.2)

/-- Modelled from the spec: the standard initial-condition rule applied when
the threaded filter state is still unset (a delay line of the filter order;
the spec leaves the exact rule to the implementer, and no settled claim
depends on it). -/
def initial_zi (bs as : List ℚ) : List ℚ :=
  List.replicate (max bs.length (as.length + 1) - 1) 0

/-- Modelled from the spec: the drop-oldest fixed-capacity insertion
`concat(buffer, chunk)[-len(buffer):]` shared by both buffers
(spec section 4.1). -/
def drop_oldest {α : Type} (data_buffer new_data : List α) : List α :=
  let cat := data_buffer ++ new_data
  cat.drop (cat.length - data_buffer.length)

/-- Modelled from the spec: `utils.update_buffer` on the raw sample buffer
(spec section 4.1): optionally filter the chunk with threaded state, then
append and truncate from the front back to the buffer length. -/
def update_buffer (bs as : List ℚ) (data_buffer new_data : List ℚ)
    (notch : Bool) (filter_state : FilterState) : List ℚ × FilterState :=
  let fp :=
    if notch then
      let z := match filter_state with
        | .unset => initial_zi bs as
        | .active z => z
      let p := lfilter bs as z new_data
      (p.1, FilterState.active p.2)
    else (new_data, filter_state)
  (drop_oldest data_buffer fp.1, fp.2)

/-- Modelled from the spec: `utils.update_buffer` on the band power buffer
(rows of four scalars, filtering disabled, incoming filter state returned
unchanged; the call site at line 113 discards it). -/
def update_buffer_rows (data_buffer new_data : List (List ℚ))
    (filter_state : FilterState) : List (List ℚ) × FilterState :=
  (drop_oldest data_buffer new_data, filter_state)

/-- Modelled from the spec: `utils.get_last_data buffer n` returns the final
`n` elements of the buffer, clamping to the whole buffer when `n` exceeds its
length (spec section 4.2). -/
def get_last_data (buffer : List ℚ) (n : ℕ) : List ℚ :=
  buffer.drop (buffer.length - n)

/-- `np.mean(rows, axis=0)` (line 118): the column-wise arithmetic mean over
all currently stored rows. -/
def np_mean_axis0 (rows : List (List ℚ)) : List ℚ :=
  (List.range (rows.headD []).length).map
    (fun j => (rows.map (fun r => r.getD j 0)).sum / rows.length)

/-- Maximum of a non-empty list; the loop applies Python `max` only after the
channel selection has succeeded, hence on non-empty data. -/
def listMax : List ℚ → ℚ
  | [] => 0
  | x :: xs => xs.foldl max x

/-- Minimum of a non-empty list, as `listMax`. -/
def listMin : List ℚ → ℚ
  | [] => 0
  | x :: xs => xs.foldl min x

/-- `signal_diff = max(ch_data) - min(ch_data)` (line 92). -/
def signal_diff (ch_data : List ℚ) : ℚ := listMax ch_data - listMin ch_data

/-- The blink branch (line 98): the key press fires exactly when
`signal_diff > BLINK_THRESHOLD`. -/
def blink_fires (ch_data : List ℚ) : Bool :=
  decide (signal_diff ch_data > BLINK_THRESHOLD)

/-- Error outcomes of the embedded program. -/
inductive PipelineError where
  | sourceUnavailable : PipelineError
  | emptyChunkIndexError : PipelineError
deriving DecidableEq, Repr

/-- The state owned by the orchestration loop. -/
structure LoopState where
  eeg_buffer : List ℚ
  band_buffer : List (List ℚ)
  filter_state : FilterState

/-- What one loop pass produces besides the new state. -/
structure IterResult where
  state : LoopState
  blink : Bool
  smooth_band_powers : List ℚ

/-- `ch_data = np.array(eeg_data)[:, INDEX_CHANNEL]` (line 88): select channel
0 of every sample row.  On an empty pull `np.array([])` is one-dimensional
and the column indexing raises `IndexError`. -/
def select_channel (eeg_data : List (List ℚ)) : Except PipelineError (List ℚ) :=
  if eeg_data.isEmpty then .error .emptyChunkIndexError
  else .ok (eeg_data.map (fun row => row.getD 0 0))

/-- One pass of the orchestration loop (lines 83 to 126): channel selection,
blink detection, filtered sample-buffer update, epoch extraction, band powers
(`utils.compute_band_powers` is not in the source tree and enters as the
function argument `band_powers_fn`), smoothing-buffer update with its second
return value discarded, and the column-wise mean report. -/
def loopIteration (bs as : List ℚ) (band_powers_fn : List ℚ → ℕ → List ℚ)
    (fs : ℕ) (st : LoopState) (eeg_data : List (List ℚ)) :
    Except PipelineError IterResult := do
  let ch_data ← select_channel eeg_data
  let blink := blink_fires ch_data
  let p := update_buffer bs as st.eeg_buffer ch_data true st.filter_state
  let data_epoch := get_last_data p.1 (EPOCH_LENGTH * fs)
  let band_powers := band_powers_fn data_epoch fs
  let q := update_buffer_rows st.band_buffer [band_powers] .unset
  pure { state := { eeg_buffer := p.1, band_buffer := q.1, filter_state := p.2 },
         blink := blink,
         smooth_band_powers := np_mean_axis0 q.1 }

/-- Initial raw EEG buffer `np.zeros((int(fs * BUFFER_LENGTH), 1))`
(line 65). -/
def init_eeg_buffer (fs : ℕ) : List ℚ := List.replicate (fs * BUFFER_LENGTH) 0

/-- Initial band power buffer `np.zeros((n_win_test, 4))` (line 73). -/
def init_band_buffer : List (List ℚ) :=
  List.replicate n_win_test (List.replicate 4 0)

/-- Startup (lines 46 to 73): with no stream discovered the program raises
`RuntimeError` at once; otherwise the buffers are initialized and the state
is handed to the loop.  Stream handles are opaque tokens here. -/
def startup (streams : List ℕ) (fs : ℕ) : Except PipelineError LoopState :=
  if streams.length = 0 then .error .sourceUnavailable
  else .ok { eeg_buffer := init_eeg_buffer fs,
             band_buffer := init_band_buffer,
             filter_state := .unset }

/-! ## Helper lemmas -/

lemma drop_oldest_length {α : Type} (b c : List α) :
    (drop_oldest b c).length = b.length := by
  simp [drop_oldest]

/-! ## Claims -/

/-- C2: the band power buffer is created with
`floor((BUFFER_LENGTH - EPOCH_LENGTH)/SHIFT_LENGTH + 1)` rows, and with the
configured constants that value is exactly 21. -/
theorem band_buffer_rows : n_win_test = 21 ∧ init_band_buffer.length = 21 := by
  have h : n_win_test = 21 := by
    norm_num [n_win_test, BUFFER_LENGTH, EPOCH_LENGTH, SHIFT_LENGTH,
      OVERLAP_LENGTH]
    decide
  exact ⟨h, by simp [init_band_buffer, h]⟩

/-- C3: for every non-empty chunk the blink branch fires iff the peak-to-peak
amplitude strictly exceeds the threshold; a chunk whose amplitude equals the
threshold exactly does not fire (exclusive boundary). -/
theorem blink_fires_iff (x : ℚ) (xs : List ℚ) :
    (blink_fires (x :: xs) = true ↔
      listMax (x :: xs) - listMin (x :: xs) > BLINK_THRESHOLD) ∧
    (listMax (x :: xs) - listMin (x :: xs) = BLINK_THRESHOLD →
      blink_fires (x :: xs) = false) := by
  constructor
  · simp [blink_fires, signal_diff]
  · intro h
    simp [blink_fires, signal_diff, h]

/-- Witness for C3 at the boundary chunk `[0, 200]`. -/
theorem blink_fires_iff_witness :
    listMax [0, 200] - listMin [0, 200] = BLINK_THRESHOLD ∧
    blink_fires [(0 : ℚ), 200] = false :=
  ⟨by norm_num [listMax, listMin, BLINK_THRESHOLD],
   (blink_fires_iff 0 [200]).2 (by norm_num [listMax, listMin, BLINK_THRESHOLD])⟩

/-- C4: the buffer-update operation preserves length for both the raw sample
buffer and the band power buffer, for every chunk length (zero, short, or
longer than the buffer), so both buffers keep their initialization lengths. -/
theorem update_buffer_preserves_length (bs as : List ℚ) (buffer chunk : List ℚ)
    (notch : Bool) (z : FilterState) (band rows : List (List ℚ))
    (zr : FilterState) :
    (update_buffer bs as buffer chunk notch z).1.length = buffer.length ∧
    (update_buffer_rows band rows zr).1.length = band.length := by
  constructor
  · unfold update_buffer
    cases notch <;> simp [drop_oldest_length]
  · exact drop_oldest_length band rows

/-- C5: filtering `c1` and then `c2` with the delay line carried forward from
the first call equals filtering the concatenation `c1 ++ c2` in a single call
(exact equality over the rationals, hence within every floating tolerance). -/
theorem lfilter_append (bs as z : List ℚ) (c1 c2 : List ℚ) :
    lfilter bs as z (c1 ++ c2) =
      ((lfilter bs as z c1).1 ++ (lfilter bs as (lfilter bs as z c1).2 c2).1,
       (lfilter bs as (lfilter bs as z c1).2 c2).2) := by
  induction c1 generalizing z with
  | nil => simp [lfilter]
  | cons x xs ih => simp [lfilter, ih]

/-- C6: the reported smoothed band powers are exactly the column-wise
arithmetic mean of the rows currently stored in the band power buffer
(zero-initialized rows included), and for a buffer whose rows all equal
`[a, b, c, d]` that mean is exactly `[a, b, c, d]`. -/
theorem smooth_mean_spec :
    (∀ (bs as : List ℚ) (bpf : List ℚ → ℕ → List ℚ) (fs : ℕ) (st : LoopState)
        (eeg_data : List (List ℚ)),
      (loopIteration bs as bpf fs st eeg_data).map
          (fun r => r.smooth_band_powers) =
        (loopIteration bs as bpf fs st eeg_data).map
          (fun r => np_mean_axis0 r.state.band_buffer)) ∧
    (∀ (n : ℕ) (a b c d : ℚ), 0 < n →
      np_mean_axis0 (List.replicate n [a, b, c, d]) = [a, b, c, d]) := by
  constructor
  · intro bs as bpf fs st eeg_data
    cases eeg_data with
    | nil => rfl
    | cons r rs => rfl
  · intro n a b c d h
    cases n with
    | zero => exact absurd h (by simp)
    | succ m =>
      have key : ∀ x : ℚ, (x + (m : ℚ) * x) / ((m : ℚ) + 1) = x := by
        intro x
        have hm : ((m : ℚ) + 1) ≠ 0 := by positivity
        field_simp
        ring
      simp [np_mean_axis0, List.replicate_succ, List.map_replicate,
        List.sum_replicate, List.range_succ, Nat.cast_succ]
      exact ⟨key a, key b, key c, key d⟩

/-- Witness for C6 at three identical rows. -/
theorem smooth_mean_spec_witness :
    0 < 3 ∧
    np_mean_axis0 (List.replicate 3 [(1 : ℚ), 2, 3, 4]) = [1, 2, 3, 4] :=
  ⟨by decide, smooth_mean_spec.2 3 1 2 3 4 (by decide)⟩

/-- C7: the epoch request is `EPOCH_LENGTH * fs` samples, never more than the
sample buffer holds (`EPOCH_LENGTH * fs ≤ BUFFER_LENGTH * fs`), and on a
buffer of the loop invariant length the extractor returns exactly that many
samples, so its clamp branch is never taken in the loop. -/
theorem epoch_request_in_bounds (fs : ℕ) (buffer : List ℚ)
    (hlen : buffer.length = fs * BUFFER_LENGTH) :
    EPOCH_LENGTH * fs ≤ BUFFER_LENGTH * fs ∧
    EPOCH_LENGTH * fs ≤ buffer.length ∧
    (get_last_data buffer (EPOCH_LENGTH * fs)).length = EPOCH_LENGTH * fs := by
  simp only [get_last_data, List.length_drop, hlen, EPOCH_LENGTH, BUFFER_LENGTH]
  omega

/-- Witness for C7 at `fs = 2` with the invariant-length buffer. -/
theorem epoch_request_in_bounds_witness :
    (List.replicate 10 (0 : ℚ)).length = 2 * BUFFER_LENGTH ∧
    (get_last_data (List.replicate 10 (0 : ℚ)) (EPOCH_LENGTH * 2)).length =
      EPOCH_LENGTH * 2 :=
  ⟨by decide,
   (epoch_request_in_bounds 2 (List.replicate 10 0) (by decide)).2.2⟩

/-- C8: when stream discovery returns no streams, startup fails at once with
the fatal error: no buffers are initialized, nothing is retried, and the loop
is never entered. -/
theorem startup_no_stream (fs : ℕ) :
    startup [] fs = Except.error PipelineError.sourceUnavailable := rfl

/-- C9: a chunk with exactly one sample never fires the blink branch: its
peak-to-peak amplitude is zero and the threshold 200 is positive. -/
theorem single_sample_no_blink (x : ℚ) : blink_fires [x] = false := by
  simp [blink_fires, signal_diff, listMax, listMin, BLINK_THRESHOLD]

/-- C10: the filter state threaded to the next pass is exactly the one
returned by the sample-buffer update; the second return value of the
band-power-buffer update is discarded, so the smoothing-buffer contents never
influence the threaded filter state. -/
theorem filter_state_frame (bs as : List ℚ) (bpf : List ℚ → ℕ → List ℚ)
    (fs : ℕ) (eeg : List ℚ) (band1 band2 : List (List ℚ)) (z : FilterState)
    (eeg_data : List (List ℚ)) :
    ((loopIteration bs as bpf fs ⟨eeg, band1, z⟩ eeg_data).map
        (fun r => r.state.filter_state) =
      (loopIteration bs as bpf fs ⟨eeg, band2, z⟩ eeg_data).map
        (fun r => r.state.filter_state)) ∧
    (eeg_data ≠ [] →
      (loopIteration bs as bpf fs ⟨eeg, band1, z⟩ eeg_data).map
          (fun r => r.state.filter_state) =
        Except.ok (update_buffer bs as eeg
          (eeg_data.map (fun row => row.getD 0 0)) true z).2) := by
  cases eeg_data with
  | nil => exact ⟨rfl, fun h => absurd rfl h⟩
  | cons r rs => exact ⟨rfl, fun _ => rfl⟩

/-- Witness for C10 at a one-sample chunk. -/
theorem filter_state_frame_witness :
    ([[(1 : ℚ)]] : List (List ℚ)) ≠ [] ∧
    (loopIteration [1] [] (fun _ _ => [0, 0, 0, 0]) 1
        ⟨[0, 0, 0, 0, 0], [[0, 0, 0, 0]], .unset⟩ [[1]]).map
        (fun r => r.state.filter_state) =
      Except.ok (update_buffer [1] [] [0, 0, 0, 0, 0]
        ([[(1 : ℚ)]].map (fun row => row.getD 0 0)) true .unset).2 :=
  ⟨by simp,
   (filter_state_frame [1] [] (fun _ _ => [0, 0, 0, 0]) 1 [0, 0, 0, 0, 0]
      [[0, 0, 0, 0]] [[0, 0, 0, 0]] .unset [[1]]).2 (by simp)⟩

/-- C1 (code bug): on an empty pull the iteration does not proceed.  The
channel selection `np.array(eeg_data)[:, INDEX_CHANNEL]` raises on
zero-length input, so the loop errors instead of passing the buffers through
unchanged and reporting no blink.  Evaluated here at the initial loop state
with `fs = 256`. -/
theorem empty_pull_errors :
    loopIteration [1] [] (fun _ _ => [0, 0, 0, 0]) 256
      { eeg_buffer := init_eeg_buffer 256, band_buffer := init_band_buffer,
        filter_state := .unset } [] =
      Except.error PipelineError.emptyChunkIndexError := rfl

end Neurofeedback
